import Mathlib

/-!
Shallow embedding of the Zora alarm scheduling and triggering engine.

The definitions below are translated from the TypeScript sources of the
repository: the recurrence matcher `isAlarmOnDate`, the 1 Hz tick loop and
its dedupe set `triggeredItemsRef`, the ringing state, the event chime, the
volume ramp, the AI greeting orchestration of both app variants, and the
editor modal save handlers.
-/

namespace Zora

/-- Calendar date with numeric fields, standing for the dates whose ISO key
the app manipulates as a fixed-width YYYY-MM-DD string. -/
structure Date where
  year : Nat
  month : Nat
  day : Nat
deriving Repr, DecidableEq

/-- Left-pads a number below 10 with one zero, as padStart 2 does. -/
def pad2 (n : Nat) : String :=
  if n < 10 then "0" ++ toString n else toString n

/-- Four-digit year rendering used by toISOString for years 1000..9999. -/
def pad4 (n : Nat) : String :=
  if n < 10 then "000" ++ toString n
  else if n < 100 then "00" ++ toString n
  else if n < 1000 then "0" ++ toString n
  else toString n

/-- Embeds formatDateKey from src/utils/dateUtils.ts: the YYYY-MM-DD part of
the ISO rendering of a date. -/
def formatDateKey (d : Date) : String :=
  pad4 d.year ++ "-" ++ pad2 d.month ++ "-" ++ pad2 d.day

/-- Embeds the weekday the matcher derives via new Date(dateKey).getDay():
0 = Sunday .. 6 = Saturday, computed by Zeller's congruence on the civil
date the key denotes. -/
def getDay (d : Date) : Nat :=
  let m := if d.month ≤ 2 then d.month + 12 else d.month
  let y := if d.month ≤ 2 then d.year - 1 else d.year
  let k := y % 100
  let j := y / 100
  (d.day + 13 * (m + 1) / 5 + k + k / 4 + j / 4 + 5 * j + 6) % 7

/-- Code-unit lexicographic comparison on character lists, the order the
JavaScript string comparison operators use. -/
def lexLe : List Char → List Char → Bool
  | [], _ => true
  | _ :: _, [] => false
  | a :: as, b :: bs =>
    if a < b then true
    else if b < a then false
    else lexLe as bs

/-- JavaScript string less-or-equal, applied in the matcher to fixed-width
date keys. -/
def strLe (s t : String) : Bool :=
  lexLe s.data t.data

/-- Embeds the two-member string union used for the type field of an item:
the values are the literals alarm and event. -/
inductive ItemKind where
  | alarm
  | event
deriving Repr, DecidableEq

/-- Embeds the dateRange field of Alarm from src/types; source field names
are from and to, renamed fromDate and toDate because from is reserved. -/
structure DateRange where
  fromDate : String
  toDate : String
deriving Repr, DecidableEq

/-- Embeds the Alarm record of src/types (part_000 variant, the richest):
optional fields are Option, absent by default. -/
structure Alarm where
  id : String
  time : String
  endTime : Option String := none
  label : String
  description : Option String := none
  specificDates : Option (List String) := none
  dateRange : Option DateRange := none
  repeatDays : Option (List Nat) := none
  isEnabled : Bool
  soundId : String
  isAiEnabled : Option Bool := none
  type : Option ItemKind := none
deriving Repr, DecidableEq

/-- Embeds isAlarmOnDate from the App components (part_001 line 318,
part_002 line 295): membership of the date key in specificDates, or the key
between the range bounds under string comparison, or the weekday of the
parsed key in repeatDays; the early returns of the source are the
short-circuit or-chain here. -/
def isAlarmOnDate (a : Alarm) (d : Date) : Bool :=
  let dateKey := formatDateKey d
  let dayOfWeek := getDay d
  (match a.specificDates with
   | some ds => ds.contains dateKey
   | none => false) ||
  (match a.dateRange with
   | some r => strLe r.fromDate dateKey && strLe dateKey r.toDate
   | none => false) ||
  (match a.repeatDays with
   | some ws => ws.contains dayOfWeek
   | none => false)

/-- Wall-clock instant as the tick reads it once per tick: the calendar
date together with hour, minute and seconds. -/
structure Now where
  date : Date
  hour : Nat
  minute : Nat
  seconds : Nat
deriving Repr, DecidableEq

/-- Embeds currentTimeStr of the tick: HH:MM with zero padding. -/
def timeStrOf (now : Now) : String :=
  pad2 now.hour ++ ":" ++ pad2 now.minute

/-- Embeds secondKey of the tick: the date key and the minute string joined
by a dash. The alarm id is not part of the key. -/
def secondKeyOf (now : Now) : String :=
  formatDateKey now.date ++ "-" ++ timeStrOf now

/-- Embeds the predicate passed to alarms.find in the tick interval of
part_002 line 311: enabled, time equal to the current minute, and the
recurrence matcher true for today. -/
def tickPred (currentTimeStr : String) (today : Date) (a : Alarm) : Bool :=
  a.isEnabled && (a.time == currentTimeStr) && isAlarmOnDate a today

/-- Mutable state the tick interval closure reads and writes: the
triggeredItemsRef dedupe set, the ringingAlarm state, and the
eventNotification banner state. -/
structure TickState where
  triggeredItems : List String
  ringing : Option Alarm
  eventBanner : Option String
deriving Repr, DecidableEq

/-- Observable side-effect dispatch of one tick: nothing, the event chime
bundle for a label, or the start of the ringing lifecycle for an alarm. -/
inductive TickEffect where
  | noEffect
  | chime (label : String)
  | startRinging (a : Alarm)
deriving Repr, DecidableEq

/-- Embeds one execution of the 1 Hz interval body of part_002 lines
304-337: find the first enabled matching alarm, gate on the dedupe key and
on seconds = 0, record the key, then either chime (event kind) or, only
when nothing is ringing, start ringing. -/
def tick (alarms : List Alarm) (now : Now) (s : TickState) : TickState × TickEffect :=
  match alarms.find? (tickPred (timeStrOf now) now.date) with
  | none => (s, .noEffect)
  | some triggered =>
    if !(s.triggeredItems.contains (secondKeyOf now)) && (now.seconds == 0) then
      if triggered.type = some ItemKind.event then
        ({ s with triggeredItems := secondKeyOf now :: s.triggeredItems,
                  eventBanner := some triggered.label }, .chime triggered.label)
      else
        match s.ringing with
        | some _ =>
          ({ s with triggeredItems := secondKeyOf now :: s.triggeredItems }, .noEffect)
        | none =>
          ({ s with triggeredItems := secondKeyOf now :: s.triggeredItems,
                    ringing := some triggered }, .startRinging triggered)
    else (s, .noEffect)

/-- DedupeTracker primitive as the tick implements it over
triggeredItemsRef: membership test followed by insertion on first use. -/
def shouldFire (key : String) (consumed : List String) : Bool × List String :=
  if consumed.contains key then (false, consumed) else (true, key :: consumed)

/-- Embeds handleDismissAlarm of part_002 lines 278-289 on the tick state:
the ringing context is cleared. -/
def handleDismissAlarm (s : TickState) : TickState :=
  { s with ringing := none }

/-- Observable outputs of playEventChime, part_002 lines 157-191: a short
tone, a single 400 ms vibration burst, a notification and the in-app
banner, all labelled with the event label. -/
structure ChimeEffects where
  tonePlayed : Bool
  vibrateMs : Nat
  notifyLabel : String
  bannerLabel : String
deriving Repr, DecidableEq

/-- Embeds playEventChime on its observable outputs. -/
def playEventChime (label : String) : ChimeEffects :=
  { tonePlayed := true, vibrateMs := 400, notifyLabel := label, bannerLabel := label }

/-- Audio-side state of the orchestrator: the looped alarm element volume
and playing flag, the vibration interval, and the narration source. -/
structure AudioState where
  alarmVolume : ℚ
  alarmPlaying : Bool
  vibrating : Bool
  narrationPlaying : Bool
deriving Repr, DecidableEq

/-- Embeds the application of a synthesized narration result in
playAiGreeting of part_002 lines 256-274: before playing, the live ringing
context is compared with the alarm that initiated the request; on mismatch
or after dismissal the result is dropped, otherwise the narration plays and
the looped alarm audio is ducked to 0.15. The Bool reports whether
narration audio was played. -/
def applyAiGreeting (requester : Alarm) (ringingNow : Option Alarm)
    (s : AudioState) : AudioState × Bool :=
  match ringingNow with
  | none => (s, false)
  | some r =>
    if r.id = requester.id then
      ({ s with narrationPlaying := true, alarmVolume := 15/100 }, true)
    else (s, false)

/-- Embeds the application of a synthesized narration result in
playImmediateAiGreeting of part_001 lines 265-288: there is no comparison
with the live ringing context; the narration always plays and the looped
alarm audio is ducked to 0.1. -/
def applyImmediateAiGreeting (requester : Alarm) (ringingNow : Option Alarm)
    (s : AudioState) : AudioState × Bool :=
  ({ s with narrationPlaying := true, alarmVolume := 1/10 }, true)

/-- Embeds the catch branch of playAiGreeting, part_002 line 275: the error
is logged and nothing else changes. -/
def aiGreetingCatch (s : AudioState) : AudioState :=
  s

/-- Embeds the catch branch of playImmediateAiGreeting, part_001 lines
289-295: the error is logged and the looped alarm volume is set to the
fixed fallback 0.8. -/
def immediateAiGreetingCatch (s : AudioState) : AudioState :=
  { s with alarmVolume := 8/10 }

/-- Outcome of the narration pipeline: synthesized audio data, or a failure
raised at any stage (network, malformed response, synthesis). -/
inductive NarrationOutcome where
  | success (audioData : String)
  | failure (msg : String)
deriving Repr, DecidableEq

/-- Whole playAiGreeting boundary of part_002 as a total function: a
failure at any stage lands in the catch branch and plays nothing. -/
def runAiGreeting (requester : Alarm) (outcome : NarrationOutcome)
    (ringingNow : Option Alarm) (s : AudioState) : AudioState × Bool :=
  match outcome with
  | .failure _ => (aiGreetingCatch s, false)
  | .success _ => applyAiGreeting requester ringingNow s

/-- Whole playImmediateAiGreeting boundary of part_001 as a total function:
a failure at any stage lands in the catch branch and plays nothing. -/
def runImmediateAiGreeting (requester : Alarm) (outcome : NarrationOutcome)
    (ringingNow : Option Alarm) (s : AudioState) : AudioState × Bool :=
  match outcome with
  | .failure _ => (immediateAiGreetingCatch s, false)
  | .success _ => applyImmediateAiGreeting requester ringingNow s

/-- Embeds the initial looped-audio volume of the ramp effect, part_001
line 119: 0.05 when the network is reachable, 0.2 when it is not. -/
def initialRampVolume (onLine : Bool) : ℚ :=
  if onLine then 5/100 else 2/10

/-- Embeds one firing of the 3 s ramp interval of part_001 lines 121-128:
below the ceiling the volume is multiplied by 1.3 and capped at 1,
otherwise it stays. -/
def rampStep (v : ℚ) : ℚ :=
  if v < 1 then min 1 (v * (13/10)) else v

/-- Volume after n ramp intervals starting from v0. -/
def rampSeq (v0 : ℚ) : Nat → ℚ
  | 0 => v0
  | n + 1 => rampStep (rampSeq v0 n)

/-- State of the editor modal at save time (part_005 variant; the fields
the simpler AlarmModal.tsx variant lacks are ignored by its handler). -/
structure ModalState where
  time : String
  endTime : String
  label : String
  description : String
  type : ItemKind
  repeatDays : List Nat
  specificDates : List String
  useRange : Bool
  rangeFrom : String
  rangeTo : String
  selectedSoundId : String
deriving Repr, DecidableEq

/-- Alarm record as the modal emits it, an Alarm without the id. -/
structure SavedAlarm where
  time : String
  endTime : Option String
  label : String
  description : Option String
  type : Option ItemKind
  specificDates : Option (List String)
  dateRange : Option DateRange
  repeatDays : Option (List Nat)
  isEnabled : Bool
  soundId : String
deriving Repr, DecidableEq

/-- JavaScript string or-else: the left operand unless it is empty. -/
def strOr (s fallback : String) : String :=
  if s = "" then fallback else s

/-- Embeds handleSave of the part_005 modal, lines 109-126: events always
use the range; specificDates and dateRange are set on opposite branches of
finalUseRange; repeatDays is kept whenever nonempty. -/
def handleSave (st : ModalState) (initialDate : Option String) : SavedAlarm :=
  let finalUseRange : Bool := if st.type = ItemKind.event then true else st.useRange
  { time := st.time
    endTime := if st.type = ItemKind.event then some st.endTime else none
    label := strOr st.label
      (if st.type = ItemKind.alarm then "New Alarm" else "Untitled Event")
    description := if st.type = ItemKind.event then some st.description else none
    type := some st.type
    specificDates := if finalUseRange then none else some st.specificDates
    dateRange :=
      if finalUseRange then
        some { fromDate := strOr st.rangeFrom (initialDate.getD ""),
               toDate := strOr st.rangeTo (strOr st.rangeFrom (initialDate.getD "")) }
      else none
    repeatDays := if st.repeatDays.length > 0 then some st.repeatDays else none
    isEnabled := true
    soundId := st.selectedSoundId }

/-- Embeds handleSave of src/components/AlarmModal.tsx lines 101-113: the
variant without the event kind; specificDates and dateRange are set on
opposite branches of useRange. -/
def handleSaveSimple (st : ModalState) : SavedAlarm :=
  { time := st.time
    endTime := none
    label := strOr st.label "Sync Point"
    description := none
    type := none
    specificDates := if st.useRange then none else some st.specificDates
    dateRange := if st.useRange then some { fromDate := st.rangeFrom, toDate := st.rangeTo } else none
    repeatDays := if st.repeatDays.length > 0 then some st.repeatDays else none
    isEnabled := true
    soundId := st.selectedSoundId }

/-! Concrete instances used by the witnesses and counterexamples below. -/

/-- Tick state at process start: empty dedupe set, nothing ringing. -/
def emptyTickState : TickState :=
  { triggeredItems := [], ringing := none, eventBanner := none }

/-- Alarm that repeats on Mondays only. -/
def mondayAlarm : Alarm :=
  { id := "m1", time := "07:00", label := "Monday", repeatDays := some [1],
    isEnabled := true, soundId := "classic" }

/-- First of two distinct event items sharing date and minute. -/
def eventOne : Alarm :=
  { id := "ev1", time := "07:30", label := "E1", specificDates := some ["2024-05-15"],
    isEnabled := true, soundId := "classic", type := some ItemKind.event }

/-- Second of two distinct event items sharing date and minute. -/
def eventTwo : Alarm :=
  { id := "ev2", time := "07:30", label := "E2", specificDates := some ["2024-05-15"],
    isEnabled := true, soundId := "classic", type := some ItemKind.event }

/-- Instant 2024-05-15 07:30:00, a tick at second zero. -/
def nowHalfSeven : Now :=
  { date := ⟨2024, 5, 15⟩, hour := 7, minute := 30, seconds := 0 }

/-- First of two distinct alarm-kind items sharing date and minute. -/
def wakeA : Alarm :=
  { id := "wakeA", time := "08:00", label := "Wake A", specificDates := some ["2024-03-06"],
    isEnabled := true, soundId := "classic" }

/-- Second of two distinct alarm-kind items sharing date and minute. -/
def wakeB : Alarm :=
  { id := "wakeB", time := "08:00", label := "Wake B", specificDates := some ["2024-03-06"],
    isEnabled := true, soundId := "classic" }

/-- Instant 2024-03-06 08:00:00, a tick at second zero. -/
def nowEight : Now :=
  { date := ⟨2024, 3, 6⟩, hour := 8, minute := 0, seconds := 0 }

/-- First of two distinct enabled matching alarms for the candidate-set
counterexample. -/
def riseA : Alarm :=
  { id := "riseA", time := "06:45", label := "Rise A", specificDates := some ["2024-07-01"],
    isEnabled := true, soundId := "classic" }

/-- Second of two distinct enabled matching alarms for the candidate-set
counterexample. -/
def riseB : Alarm :=
  { id := "riseB", time := "06:45", label := "Rise B", specificDates := some ["2024-07-01"],
    isEnabled := true, soundId := "classic" }

/-- Instant 2024-07-01 06:45:00, a tick at second zero. -/
def nowSixFortyFive : Now :=
  { date := ⟨2024, 7, 1⟩, hour := 6, minute := 45, seconds := 0 }

/-- Alarm-kind item listed before a same-minute event. -/
def morningAlarm : Alarm :=
  { id := "mA", time := "09:00", label := "Morning", specificDates := some ["2024-03-01"],
    isEnabled := true, soundId := "classic" }

/-- Event-kind item listed after a same-minute alarm. -/
def standupEvent : Alarm :=
  { id := "sE", time := "09:00", label := "Standup", specificDates := some ["2024-03-01"],
    isEnabled := true, soundId := "classic", type := some ItemKind.event }

/-- Instant 2024-03-01 09:00:00, a tick at second zero. -/
def nowNine : Now :=
  { date := ⟨2024, 3, 1⟩, hour := 9, minute := 0, seconds := 0 }

/-- Event item triggering while another alarm rings. -/
def lunchEvent : Alarm :=
  { id := "lunch", time := "12:00", label := "Lunch", specificDates := some ["2024-04-10"],
    isEnabled := true, soundId := "classic", type := some ItemKind.event }

/-- Alarm already ringing when the lunch event triggers. -/
def earlyAlarm : Alarm :=
  { id := "early", time := "11:00", label := "Early", isEnabled := true, soundId := "classic" }

/-- Instant 2024-04-10 12:00:00, a tick at second zero. -/
def nowNoon : Now :=
  { date := ⟨2024, 4, 10⟩, hour := 12, minute := 0, seconds := 0 }

/-- Alarm that initiated a narration request. -/
def riser : Alarm :=
  { id := "riser", time := "06:00", label := "Riser", isEnabled := true,
    soundId := "classic", isAiEnabled := some true }

/-- A different alarm ringing when a stale narration result arrives. -/
def otherRinger : Alarm :=
  { id := "other", time := "06:30", label := "Other", isEnabled := true, soundId := "classic" }

/-- Audio state shortly after ringing started, volume still low. -/
def baseAudio : AudioState :=
  { alarmVolume := 1/20, alarmPlaying := true, vibrating := true, narrationPlaying := false }

/-- Audio state after the ramp has reached the ceiling. -/
def rampedAudio : AudioState :=
  { alarmVolume := 1, alarmPlaying := true, vibrating := true, narrationPlaying := false }

/-- Modal state saving an event with a repeat cycle. -/
def eventModal : ModalState :=
  { time := "10:00", endTime := "11:00", label := "", description := "",
    type := ItemKind.event, repeatDays := [2], specificDates := ["2024-06-01"],
    useRange := false, rangeFrom := "2024-06-01", rangeTo := "",
    selectedSoundId := "classic" }

/-! Helper lemmas about the tick body, shared by several claim theorems. -/

/-- Unfolds the conjunction behind a successful find predicate. -/
theorem tickPred_inv (str : String) (d : Date) (a : Alarm) (h : tickPred str d a = true) :
    a.isEnabled = true ∧ a.time = str ∧ isAlarmOnDate a d = true := by
  simpa [tickPred, and_assoc] using h

/-- A tick whose dedupe key is already consumed dispatches nothing. -/
theorem tick_consumed (alarms : List Alarm) (now : Now) (s : TickState)
    (h : s.triggeredItems.contains (secondKeyOf now) = true) :
    (tick alarms now s).2 = TickEffect.noEffect := by
  have h' : secondKeyOf now ∈ s.triggeredItems := by simpa using h
  cases hf : alarms.find? (tickPred (timeStrOf now) now.date) with
  | none => simp [tick, hf]
  | some t => simp [tick, hf, h']

/-- Consumed dedupe keys survive every tick. -/
theorem tick_mono (alarms : List Alarm) (now : Now) (s : TickState)
    (key : String) (h : s.triggeredItems.contains key = true) :
    (tick alarms now s).1.triggeredItems.contains key = true := by
  have h' : key ∈ s.triggeredItems := by simpa using h
  cases hf : alarms.find? (tickPred (timeStrOf now) now.date) with
  | none => simpa [tick, hf] using h'
  | some t =>
    by_cases hcon : secondKeyOf now ∈ s.triggeredItems
    · simp [tick, hf, hcon, h']
    · by_cases hsec : now.seconds = 0
      · by_cases he : t.type = some ItemKind.event
        · simp [tick, hf, hcon, hsec, he, h']
        · cases hr : s.ringing with
          | some r => simp [tick, hf, hcon, hsec, he, hr, h']
          | none => simp [tick, hf, hcon, hsec, he, hr, h']
      · simp [tick, hf, hcon, hsec, h']

/-- A tick that dispatched something has recorded its dedupe key. -/
theorem tick_fired_records (alarms : List Alarm) (now : Now) (s : TickState)
    (h : (tick alarms now s).2 ≠ TickEffect.noEffect) :
    (tick alarms now s).1.triggeredItems.contains (secondKeyOf now) = true := by
  cases hf : alarms.find? (tickPred (timeStrOf now) now.date) with
  | none => simp [tick, hf] at h
  | some t =>
    by_cases hcon : secondKeyOf now ∈ s.triggeredItems
    · simp [tick, hf, hcon] at h
    · by_cases hsec : now.seconds = 0
      · by_cases he : t.type = some ItemKind.event
        · simp [tick, hf, hcon, hsec, he]
        · cases hr : s.ringing with
          | some r => simp [tick, hf, hcon, hsec, he, hr] at h
          | none => simp [tick, hf, hcon, hsec, he, hr]
      · simp [tick, hf, hcon, hsec] at h

/-- A tick that dispatched something ran at second zero on a fresh key. -/
theorem tick_fired_inv (alarms : List Alarm) (now : Now) (s : TickState)
    (h : (tick alarms now s).2 ≠ TickEffect.noEffect) :
    now.seconds = 0 ∧ s.triggeredItems.contains (secondKeyOf now) = false := by
  cases hf : alarms.find? (tickPred (timeStrOf now) now.date) with
  | none => simp [tick, hf] at h
  | some t =>
    by_cases hcon : secondKeyOf now ∈ s.triggeredItems
    · simp [tick, hf, hcon] at h
    · by_cases hsec : now.seconds = 0
      · exact ⟨hsec, by simpa using hcon⟩
      · simp [tick, hf, hcon, hsec] at h

/-- While something rings, a tick keeps it ringing and starts no new ring. -/
theorem tick_ringing_preserved (alarms : List Alarm) (now : Now) (s : TickState) (r : Alarm)
    (hr : s.ringing = some r) :
    (tick alarms now s).1.ringing = some r ∧
    ∀ a, (tick alarms now s).2 ≠ TickEffect.startRinging a := by
  cases hf : alarms.find? (tickPred (timeStrOf now) now.date) with
  | none => simp [tick, hf, hr]
  | some t =>
    by_cases hcon : secondKeyOf now ∈ s.triggeredItems
    · simp [tick, hf, hcon, hr]
    · by_cases hsec : now.seconds = 0
      · by_cases he : t.type = some ItemKind.event
        · simp [tick, hf, hcon, hsec, he, hr]
        · simp [tick, hf, hcon, hsec, he, hr]
      · simp [tick, hf, hcon, hsec, hr]

/-- From the idle state, the head of a two-element list that passes the
predicate and is not an event wins the ringing slot on a fresh tick. -/
theorem tick_first_match_rings (a1 a2 : Alarm) (now : Now) (s : TickState)
    (h0 : s.ringing = none)
    (h1 : s.triggeredItems.contains (secondKeyOf now) = false)
    (h2 : now.seconds = 0)
    (h3 : tickPred (timeStrOf now) now.date a1 = true)
    (h4 : a1.type ≠ some ItemKind.event) :
    (tick [a1, a2] now s).1.ringing = some a1 ∧
    (tick [a1, a2] now s).2 = TickEffect.startRinging a1 := by
  have hcon : secondKeyOf now ∉ s.triggeredItems := by simpa using h1
  have hf : [a1, a2].find? (tickPred (timeStrOf now) now.date) = some a1 :=
    List.find?_cons_of_pos _ h3
  simp [tick, hf, hcon, h2, h4, h0]

/-- A ringing start is the first predicate match, at second zero, with a
fresh key, from idle, and not an event. -/
theorem tick_startRinging_inv (alarms : List Alarm) (now : Now) (s : TickState) (a : Alarm)
    (h : (tick alarms now s).2 = TickEffect.startRinging a) :
    alarms.find? (tickPred (timeStrOf now) now.date) = some a ∧
    now.seconds = 0 ∧ s.triggeredItems.contains (secondKeyOf now) = false ∧
    s.ringing = none ∧ a.type ≠ some ItemKind.event := by
  cases hf : alarms.find? (tickPred (timeStrOf now) now.date) with
  | none => simp [tick, hf] at h
  | some t =>
    by_cases hcon : secondKeyOf now ∈ s.triggeredItems
    · simp [tick, hf, hcon] at h
    · by_cases hsec : now.seconds = 0
      · by_cases he : t.type = some ItemKind.event
        · simp [tick, hf, hcon, hsec, he] at h
        · cases hr : s.ringing with
          | some r => simp [tick, hf, hcon, hsec, he, hr] at h
          | none =>
            simp [tick, hf, hcon, hsec, he, hr] at h
            subst h
            exact ⟨rfl, hsec, by simpa using hcon, rfl, he⟩
      · simp [tick, hf, hcon, hsec] at h

/-- A chime dispatch comes from an event-kind first predicate match at
second zero with a fresh key. -/
theorem tick_chime_inv (alarms : List Alarm) (now : Now) (s : TickState) (lab : String)
    (h : (tick alarms now s).2 = TickEffect.chime lab) :
    ∃ t, alarms.find? (tickPred (timeStrOf now) now.date) = some t ∧
      t.label = lab ∧ t.type = some ItemKind.event ∧
      now.seconds = 0 ∧ s.triggeredItems.contains (secondKeyOf now) = false := by
  cases hf : alarms.find? (tickPred (timeStrOf now) now.date) with
  | none => simp [tick, hf] at h
  | some t =>
    by_cases hcon : secondKeyOf now ∈ s.triggeredItems
    · simp [tick, hf, hcon] at h
    · by_cases hsec : now.seconds = 0
      · by_cases he : t.type = some ItemKind.event
        · simp [tick, hf, hcon, hsec, he] at h
          exact ⟨t, rfl, h, he, hsec, by simpa using hcon⟩
        · cases hr : s.ringing with
          | some r => simp [tick, hf, hcon, hsec, he, hr] at h
          | none => simp [tick, hf, hcon, hsec, he, hr] at h
      · simp [tick, hf, hcon, hsec] at h

/-- An event-kind first match on a fresh tick chimes, leaves the ringing
context untouched, and raises the banner. -/
theorem tick_event_fires (alarms : List Alarm) (now : Now) (s : TickState) (e : Alarm)
    (hf : alarms.find? (tickPred (timeStrOf now) now.date) = some e)
    (he : e.type = some ItemKind.event)
    (hcon : s.triggeredItems.contains (secondKeyOf now) = false)
    (hsec : now.seconds = 0) :
    (tick alarms now s).2 = TickEffect.chime e.label ∧
    (tick alarms now s).1.ringing = s.ringing ∧
    (tick alarms now s).1.eventBanner = some e.label := by
  have hcon' : secondKeyOf now ∉ s.triggeredItems := by simpa using hcon
  simp [tick, hf, hcon', hsec, he]

/-! Helper lemmas about the volume ramp. -/

/-- One ramp step never exceeds the ceiling. -/
theorem rampStep_le_one {v : ℚ} (h : v ≤ 1) : rampStep v ≤ 1 := by
  unfold rampStep
  split
  · exact min_le_left _ _
  · exact h

/-- One ramp step keeps the volume nonnegative. -/
theorem rampStep_nonneg {v : ℚ} (h : 0 ≤ v) : 0 ≤ rampStep v := by
  unfold rampStep
  split
  · exact le_min (by norm_num) (by nlinarith)
  · exact h

/-- One ramp step never lowers a volume inside the unit interval. -/
theorem le_rampStep {v : ℚ} (h0 : 0 ≤ v) (h1 : v ≤ 1) : v ≤ rampStep v := by
  unfold rampStep
  split
  · exact le_min h1 (by nlinarith)
  · exact le_refl v

/-- The ramp sequence stays nonnegative. -/
theorem rampSeq_nonneg {v0 : ℚ} (h : 0 ≤ v0) : ∀ n, 0 ≤ rampSeq v0 n
  | 0 => h
  | n + 1 => rampStep_nonneg (rampSeq_nonneg h n)

/-- The ramp sequence stays below the ceiling. -/
theorem rampSeq_le_one {v0 : ℚ} (h : v0 ≤ 1) : ∀ n, rampSeq v0 n ≤ 1
  | 0 => h
  | n + 1 => rampStep_le_one (rampSeq_le_one h n)

/-- The ramp sequence dominates the capped geometric growth of the start
volume. -/
theorem rampSeq_lower {v0 : ℚ} (h0 : 0 ≤ v0) :
    ∀ n, min 1 (v0 * (13/10) ^ n) ≤ rampSeq v0 n := by
  intro n
  induction n with
  | zero =>
    have hz : v0 * (13/10 : ℚ) ^ 0 = v0 := by ring
    rw [hz]
    exact min_le_right 1 v0
  | succ n ih =>
    show min 1 (v0 * (13/10) ^ (n + 1)) ≤ rampStep (rampSeq v0 n)
    by_cases hc : rampSeq v0 n < 1
    · rcases le_or_lt 1 (v0 * (13/10) ^ n) with hx | hx
      · rw [min_eq_left hx] at ih
        linarith
      · rw [min_eq_right (le_of_lt hx)] at ih
        unfold rampStep
        rw [if_pos hc]
        have hmul : v0 * (13/10) ^ (n + 1) ≤ rampSeq v0 n * (13/10) := by
          have h13 : (0:ℚ) ≤ 13/10 := by norm_num
          have hm := mul_le_mul_of_nonneg_right ih h13
          calc v0 * (13/10) ^ (n + 1) = (v0 * (13/10) ^ n) * (13/10) := by ring
            _ ≤ rampSeq v0 n * (13/10) := hm
        exact min_le_min (le_refl 1) hmul
    · push_neg at hc
      have hstep : rampStep (rampSeq v0 n) = rampSeq v0 n := by
        unfold rampStep
        rw [if_neg (not_lt.mpr hc)]
      rw [hstep]
      exact le_trans (min_le_left _ _) hc

/-- From any start at or above the online initial volume, twelve ramp
intervals reach the ceiling. -/
theorem rampSeq_reaches {v0 : ℚ} (h0 : 1/20 ≤ v0) (h2 : v0 ≤ 1) : rampSeq v0 12 = 1 := by
  have h0' : (0:ℚ) ≤ v0 := by linarith
  have hq : (0:ℚ) ≤ (13/10 : ℚ) ^ 12 := by positivity
  have hmul := mul_le_mul_of_nonneg_right h0 hq
  have hbig : (1:ℚ) ≤ (1/20) * (13/10 : ℚ) ^ 12 := by norm_num
  have hx : (1:ℚ) ≤ v0 * (13/10) ^ 12 := by linarith
  have hge : (1:ℚ) ≤ rampSeq v0 12 := by
    have hl := rampSeq_lower h0' 12
    rw [min_eq_left hx] at hl
    exact hl
  exact le_antisymm (rampSeq_le_one h2 12) hge

/-! Claim theorems. -/

/-- C1: the recurrence matcher returns true exactly when the date key is in
specificDates, or the date range is set and brackets the key under
fixed-width lexicographic string comparison, or the weekday of the date is
in repeatDays; an alarm whose only occurrence field is repeatDays with
weekday w matches exactly the dates whose weekday is w, for every date; and
an alarm with all three occurrence fields empty never matches. -/
theorem C1_recurrence_matcher :
    (∀ (a : Alarm) (d : Date),
      isAlarmOnDate a d = true ↔
        ((∃ ds, a.specificDates = some ds ∧ formatDateKey d ∈ ds) ∨
         (∃ r, a.dateRange = some r ∧ strLe r.fromDate (formatDateKey d) = true ∧
            strLe (formatDateKey d) r.toDate = true) ∨
         (∃ ws, a.repeatDays = some ws ∧ getDay d ∈ ws))) ∧
    (∀ (w : Nat) (a : Alarm), a.specificDates = none → a.dateRange = none →
      a.repeatDays = some [w] →
      ∀ d : Date, isAlarmOnDate a d = true ↔ getDay d = w) ∧
    (∀ (a : Alarm), (a.specificDates = none ∨ a.specificDates = some []) →
      a.dateRange = none → (a.repeatDays = none ∨ a.repeatDays = some []) →
      ∀ d : Date, isAlarmOnDate a d = false) := by
  refine ⟨?_, ?_, ?_⟩
  · intro a d
    cases hsd : a.specificDates <;> cases hdr : a.dateRange <;> cases hrd : a.repeatDays <;>
      simp [isAlarmOnDate, hsd, hdr, hrd, or_assoc]
  · intro w a h1 h2 h3 d
    simp [isAlarmOnDate, h1, h2, h3]
  · intro a h1 h2 h3 d
    rcases h1 with h1 | h1 <;> rcases h3 with h3 | h3 <;>
      simp [isAlarmOnDate, h1, h2, h3]

/-- C1 witness: the Monday-only alarm matches 2024-01-01, a Monday across a
year boundary. -/
theorem C1_recurrence_matcher_witness :
    isAlarmOnDate mondayAlarm ⟨2024, 1, 1⟩ = true :=
  (C1_recurrence_matcher.2.1 1 mondayAlarm rfl rfl rfl ⟨2024, 1, 1⟩).mpr (by decide)

/-- C2 counterexample: the dedupe key carries no alarm id, so two distinct
event items sharing date and minute are not deduplicated independently; the
first tick fires only the first, and the second tick of the same minute
fires nothing, so the second item never fires that minute. -/
theorem C2_dedupe_counterexample :
    eventOne.id ≠ eventTwo.id ∧
    tickPred (timeStrOf nowHalfSeven) nowHalfSeven.date eventOne = true ∧
    tickPred (timeStrOf nowHalfSeven) nowHalfSeven.date eventTwo = true ∧
    (tick [eventOne, eventTwo] nowHalfSeven emptyTickState).2 = TickEffect.chime "E1" ∧
    (tick [eventOne, eventTwo] nowHalfSeven
        (tick [eventOne, eventTwo] nowHalfSeven emptyTickState).1).2 =
      TickEffect.noEffect := by
  decide

/-- C2 amended: the dedupe key is the pair of date and minute without the
alarm id; the first shouldFire for a key returns true and records it, later
calls with the same key return false; recorded keys persist across every
later call and every later tick, and a tick whose key is already consumed
dispatches nothing, so at most one item can fire per date and minute. -/
theorem C2_dedupe_amended (key key' : String) (consumed : List String)
    (alarms : List Alarm) (now : Now) (s : TickState) :
    (consumed.contains key = false → shouldFire key consumed = (true, key :: consumed)) ∧
    (consumed.contains key = true → shouldFire key consumed = (false, consumed)) ∧
    (consumed.contains key = true → ((shouldFire key' consumed).2.contains key = true)) ∧
    (s.triggeredItems.contains key = true →
      ((tick alarms now s).1.triggeredItems.contains key = true)) ∧
    (s.triggeredItems.contains (secondKeyOf now) = true →
      (tick alarms now s).2 = TickEffect.noEffect) ∧
    ((tick alarms now s).2 ≠ TickEffect.noEffect →
      ((tick alarms now s).1.triggeredItems.contains (secondKeyOf now) = true)) := by
  refine ⟨?_, ?_, ?_, tick_mono alarms now s key, tick_consumed alarms now s,
    tick_fired_records alarms now s⟩
  · intro h
    have h' : key ∉ consumed := by simpa using h
    simp [shouldFire, h']
  · intro h
    have h' : key ∈ consumed := by simpa using h
    simp [shouldFire, h']
  · intro h
    have h' : key ∈ consumed := by simpa using h
    by_cases hk : key' ∈ consumed
    · simpa [shouldFire, hk] using h'
    · simp [shouldFire, hk, List.mem_cons]
      exact Or.inr h'

/-- C2 amended witness: a fresh key fires and is recorded; the same key
fires no second time. -/
theorem C2_dedupe_amended_witness :
    shouldFire "2024-05-15-07:30" [] = (true, ["2024-05-15-07:30"]) ∧
    shouldFire "2024-05-15-07:30" ["2024-05-15-07:30"] = (false, ["2024-05-15-07:30"]) :=
  ⟨(C2_dedupe_amended "2024-05-15-07:30" "x" [] [] nowHalfSeven emptyTickState).1
     (by decide),
   (C2_dedupe_amended "2024-05-15-07:30" "x" ["2024-05-15-07:30"] [] nowHalfSeven
     emptyTickState).2.1 (by decide)⟩

/-- C3: while an alarm rings, every tick keeps it ringing and starts no new
ringing; and for two distinct non-event alarms matching the same date and
minute, exactly the first transitions to ringing on that tick while the
other produces no ringing effect. -/
theorem C3_single_ringing :
    (∀ (alarms : List Alarm) (now : Now) (s : TickState) (r : Alarm),
      s.ringing = some r →
        (tick alarms now s).1.ringing = some r ∧
        ∀ a, (tick alarms now s).2 ≠ TickEffect.startRinging a) ∧
    (∀ (a1 a2 : Alarm) (now : Now) (s : TickState),
      s.ringing = none →
      s.triggeredItems.contains (secondKeyOf now) = false →
      now.seconds = 0 →
      a1 ≠ a2 →
      tickPred (timeStrOf now) now.date a1 = true →
      a1.type ≠ some ItemKind.event →
      tickPred (timeStrOf now) now.date a2 = true →
      a2.type ≠ some ItemKind.event →
      (tick [a1, a2] now s).1.ringing = some a1 ∧
      (tick [a1, a2] now s).2 = TickEffect.startRinging a1 ∧
      (tick [a1, a2] now s).2 ≠ TickEffect.startRinging a2) := by
  refine ⟨tick_ringing_preserved, ?_⟩
  intro a1 a2 now s h0 h1 h2 hne h3 h4 h5 h6
  obtain ⟨hring, heff⟩ := tick_first_match_rings a1 a2 now s h0 h1 h2 h3 h4
  refine ⟨hring, heff, ?_⟩
  rw [heff]
  simp [hne]

/-- C3 witness: with wakeA already ringing a tick keeps it ringing, and
from idle the first of two same-minute alarms wins the ringing slot. -/
theorem C3_single_ringing_witness :
    ((tick [wakeB] nowEight { emptyTickState with ringing := some wakeA }).1.ringing
      = some wakeA) ∧
    (tick [wakeA, wakeB] nowEight emptyTickState).2 = TickEffect.startRinging wakeA ∧
    (tick [wakeA, wakeB] nowEight emptyTickState).2 ≠ TickEffect.startRinging wakeB :=
  ⟨(C3_single_ringing.1 [wakeB] nowEight
      { emptyTickState with ringing := some wakeA } wakeA rfl).1,
   (C3_single_ringing.2 wakeA wakeB nowEight emptyTickState rfl (by decide) rfl (by decide)
      (by decide) (by decide) (by decide) (by decide)).2.1,
   (C3_single_ringing.2 wakeA wakeB nowEight emptyTickState rfl (by decide) rfl (by decide)
      (by decide) (by decide) (by decide) (by decide)).2.2⟩

/-- C4 counterexample: in the part_001 orchestrator the synthesized result
still plays after dismissal; with no ringing context the narration is
applied and audio playback starts. -/
theorem C4_stale_narration_counterexample :
    (applyImmediateAiGreeting riser none rampedAudio).2 = true ∧
    (applyImmediateAiGreeting riser none rampedAudio).1.narrationPlaying = true :=
  ⟨rfl, rfl⟩

/-- C4 amended: the playAiGreeting orchestrator of part_002 verifies the
live ringing context against the requesting alarm, discarding the result
after dismissal or when a different alarm rings, and plays with ducking
only on a match; dismissal clears the ringing context; the
playImmediateAiGreeting variant of part_001 performs no such check and
plays a stale result even after dismissal. -/
theorem C4_stale_narration_amended (a r : Alarm) (s : AudioState) (st : TickState) :
    (applyAiGreeting a none s = (s, false)) ∧
    (r.id ≠ a.id → applyAiGreeting a (some r) s = (s, false)) ∧
    (applyAiGreeting a (some a) s =
      ({ s with narrationPlaying := true, alarmVolume := 15/100 }, true)) ∧
    ((handleDismissAlarm st).ringing = none) ∧
    ((applyImmediateAiGreeting a none s).2 = true) := by
  refine ⟨rfl, ?_, ?_, rfl, rfl⟩
  · intro h
    simp [applyAiGreeting, h]
  · simp [applyAiGreeting]

/-- C4 amended witness: a result requested by riser is discarded while a
different alarm rings. -/
theorem C4_stale_narration_amended_witness :
    applyAiGreeting riser (some otherRinger) baseAudio = (baseAudio, false) :=
  (C4_stale_narration_amended riser otherRinger baseAudio emptyTickState).2.1 (by decide)

/-- C5 counterexample: at the fully ramped volume 1, a narration failure in
the part_001 orchestrator resets the looped audio volume to the fixed value
0.8 instead of leaving it at its current ramped volume. -/
theorem C5_narration_failure_counterexample :
    rampedAudio.alarmVolume = 1 ∧
    (runImmediateAiGreeting riser (NarrationOutcome.failure "network") (some riser)
      rampedAudio).1.alarmVolume = 8/10 ∧
    ((8:ℚ)/10 ≠ 1) :=
  ⟨rfl, rfl, by norm_num⟩

/-- C5 amended: narration failure at any stage is caught at the
orchestrator boundary and never reaches the tick state machine; the
part_002 orchestrator leaves the audio state untouched, while the part_001
variant keeps playback, vibration and narration state unchanged but sets
the looped audio volume to the fixed fallback 0.8; neither variant plays
narration audio on failure. -/
theorem C5_narration_failure_amended (a : Alarm) (msg : String)
    (ringingNow : Option Alarm) (s : AudioState) :
    runAiGreeting a (NarrationOutcome.failure msg) ringingNow s = (s, false) ∧
    (runImmediateAiGreeting a (NarrationOutcome.failure msg) ringingNow s).1.alarmPlaying
        = s.alarmPlaying ∧
    (runImmediateAiGreeting a (NarrationOutcome.failure msg) ringingNow s).1.vibrating
        = s.vibrating ∧
    (runImmediateAiGreeting a (NarrationOutcome.failure msg) ringingNow s).1.narrationPlaying
        = s.narrationPlaying ∧
    (runImmediateAiGreeting a (NarrationOutcome.failure msg) ringingNow s).1.alarmVolume
        = 8/10 ∧
    (runImmediateAiGreeting a (NarrationOutcome.failure msg) ringingNow s).2 = false :=
  ⟨rfl, rfl, rfl, rfl, rfl, rfl⟩

/-- C6: an event-kind occurrence selected on a fresh tick chimes regardless
of the ringing state, leaves the ringing context exactly as it was, raises
the banner, and its chime bundle is the tone, a 400 ms vibration burst and
a notification for its label. -/
theorem C6_event_independent (alarms : List Alarm) (now : Now) (s : TickState) (e : Alarm)
    (hf : alarms.find? (tickPred (timeStrOf now) now.date) = some e)
    (he : e.type = some ItemKind.event)
    (hcon : s.triggeredItems.contains (secondKeyOf now) = false)
    (hsec : now.seconds = 0) :
    (tick alarms now s).2 = TickEffect.chime e.label ∧
    (tick alarms now s).1.ringing = s.ringing ∧
    (tick alarms now s).1.eventBanner = some e.label ∧
    playEventChime e.label =
      { tonePlayed := true, vibrateMs := 400, notifyLabel := e.label,
        bannerLabel := e.label } := by
  obtain ⟨h1, h2, h3⟩ := tick_event_fires alarms now s e hf he hcon hsec
  exact ⟨h1, h2, h3, rfl⟩

/-- C6 witness: the lunch event chimes while the early alarm is ringing and
the ringing context is unchanged. -/
theorem C6_event_independent_witness :
    (tick [lunchEvent] nowNoon { emptyTickState with ringing := some earlyAlarm }).2
        = TickEffect.chime "Lunch" ∧
    (tick [lunchEvent] nowNoon { emptyTickState with ringing := some earlyAlarm }).1.ringing
        = some earlyAlarm :=
  ⟨(C6_event_independent [lunchEvent] nowNoon
      { emptyTickState with ringing := some earlyAlarm } lunchEvent (by decide) rfl
      (by decide) rfl).1,
   (C6_event_independent [lunchEvent] nowNoon
      { emptyTickState with ringing := some earlyAlarm } lunchEvent (by decide) rfl
      (by decide) rfl).2.1⟩

/-- C7: from any start volume between the online initial value 0.05 and the
ceiling, the ramp sequence is non-decreasing, bounded by the ceiling 1, and
reaches the ceiling within twelve ramp intervals; the initial volume is
0.05 when the network is reachable and the larger 0.2 when it is not. -/
theorem C7_volume_ramp (v0 : ℚ) (h1 : 1/20 ≤ v0) (h2 : v0 ≤ 1) :
    (∀ n, rampSeq v0 n ≤ rampSeq v0 (n + 1)) ∧
    (∀ n, rampSeq v0 n ≤ 1) ∧
    rampSeq v0 12 = 1 ∧
    initialRampVolume true = 1/20 ∧ initialRampVolume false = 1/5 ∧
    initialRampVolume true < initialRampVolume false := by
  have h0 : (0:ℚ) ≤ v0 := by linarith
  refine ⟨?_, rampSeq_le_one h2, rampSeq_reaches h1 h2,
    by norm_num [initialRampVolume], by norm_num [initialRampVolume],
    by norm_num [initialRampVolume]⟩
  intro n
  exact le_rampStep (rampSeq_nonneg h0 n) (rampSeq_le_one h2 n)

/-- C7 witness: the online initial volume is a valid start and reaches the
ceiling in twelve intervals. -/
theorem C7_volume_ramp_witness :
    ((1:ℚ)/20 ≤ 1/20) ∧ ((1:ℚ)/20 ≤ 1) ∧ rampSeq (1/20) 12 = 1 :=
  ⟨le_refl _, by norm_num, (C7_volume_ramp (1/20) (le_refl _) (by norm_num)).2.2.1⟩

/-- C8 counterexample: two distinct enabled alarms both satisfy the trigger
predicate for the same date and minute, yet the tick emits a candidate only
for the first, and a second tick of the same minute emits nothing, so no
candidate is ever emitted for the second alarm that minute. -/
theorem C8_single_candidate_counterexample :
    tickPred (timeStrOf nowSixFortyFive) nowSixFortyFive.date riseA = true ∧
    tickPred (timeStrOf nowSixFortyFive) nowSixFortyFive.date riseB = true ∧
    riseA ≠ riseB ∧
    nowSixFortyFive.seconds = 0 ∧
    (tick [riseA, riseB] nowSixFortyFive emptyTickState).2 =
      TickEffect.startRinging riseA ∧
    (tick [riseA, riseB] nowSixFortyFive
      (tick [riseA, riseB] nowSixFortyFive emptyTickState).1).2 = TickEffect.noEffect := by
  decide

/-- C8 amended: a dispatch happens only at second zero with a fresh date
and minute key, and only for the single first alarm in list order that is
enabled, whose timeOfDay equals the current minute and whose recurrence
rule matches today, so at most one candidate is emitted per tick; a
disabled alarm never triggers. -/
theorem C8_trigger_filter_amended (alarms : List Alarm) (now : Now) (s : TickState) :
    ((tick alarms now s).2 ≠ TickEffect.noEffect →
      now.seconds = 0 ∧ s.triggeredItems.contains (secondKeyOf now) = false) ∧
    (∀ a, (tick alarms now s).2 = TickEffect.startRinging a →
      alarms.find? (tickPred (timeStrOf now) now.date) = some a ∧
      a.isEnabled = true ∧ a.time = timeStrOf now ∧ isAlarmOnDate a now.date = true) ∧
    (∀ a, a.isEnabled = false → (tick alarms now s).2 ≠ TickEffect.startRinging a) ∧
    (∀ lab, (tick alarms now s).2 = TickEffect.chime lab →
      ∃ a, alarms.find? (tickPred (timeStrOf now) now.date) = some a ∧
        a.isEnabled = true ∧ a.time = timeStrOf now ∧
        isAlarmOnDate a now.date = true ∧ a.label = lab) := by
  have hstart : ∀ a, (tick alarms now s).2 = TickEffect.startRinging a →
      alarms.find? (tickPred (timeStrOf now) now.date) = some a ∧
      a.isEnabled = true ∧ a.time = timeStrOf now ∧ isAlarmOnDate a now.date = true := by
    intro a h
    obtain ⟨hf, -, -, -, -⟩ := tick_startRinging_inv alarms now s a h
    obtain ⟨he1, he2, he3⟩ := tickPred_inv _ _ _ (List.find?_some hf)
    exact ⟨hf, he1, he2, he3⟩
  refine ⟨tick_fired_inv alarms now s, hstart, ?_, ?_⟩
  · intro a hdis h
    have hen := (hstart a h).2.1
    rw [hdis] at hen
    exact Bool.false_ne_true hen
  · intro lab h
    obtain ⟨t, hf, hlab, -, -, -⟩ := tick_chime_inv alarms now s lab h
    obtain ⟨he1, he2, he3⟩ := tickPred_inv _ _ _ (List.find?_some hf)
    exact ⟨t, hf, he1, he2, he3, hlab⟩

/-- C8 amended witness: the tick that rings riseA ran at second zero and
riseA is the first predicate match and enabled. -/
theorem C8_trigger_filter_amended_witness :
    nowSixFortyFive.seconds = 0 ∧
    [riseA, riseB].find? (tickPred (timeStrOf nowSixFortyFive) nowSixFortyFive.date)
      = some riseA ∧
    riseA.isEnabled = true :=
  ⟨((C8_trigger_filter_amended [riseA, riseB] nowSixFortyFive emptyTickState).1
      (by decide)).1,
   ((C8_trigger_filter_amended [riseA, riseB] nowSixFortyFive emptyTickState).2.1 riseA
      (by decide)).1,
   ((C8_trigger_filter_amended [riseA, riseB] nowSixFortyFive emptyTickState).2.1 riseA
      (by decide)).2.1⟩

/-- C9 counterexample: an alarm-kind and an event-kind item both match the
same date and minute; on the tick the alarm wins the ringing slot and no
chime is dispatched for the event, and a second tick of the same minute
dispatches nothing, so the event never chimes that minute. -/
theorem C9_event_blocked_counterexample :
    tickPred "09:00" nowNine.date morningAlarm = true ∧
    tickPred "09:00" nowNine.date standupEvent = true ∧
    standupEvent.type = some ItemKind.event ∧
    morningAlarm.type ≠ some ItemKind.event ∧
    (tick [morningAlarm, standupEvent] nowNine emptyTickState).2 =
      TickEffect.startRinging morningAlarm ∧
    (tick [morningAlarm, standupEvent] nowNine
      (tick [morningAlarm, standupEvent] nowNine emptyTickState).1).2 =
      TickEffect.noEffect := by
  decide

/-- C9 amended: within a tick only the first matching alarm in list order
becomes the candidate and its side effect is dispatched in that same tick;
when an alarm-kind match precedes an event-kind match for the same minute,
the alarm wins the ringing slot, no chime is dispatched on that tick, and
the consumed date and minute key keeps the event from chiming on any later
tick of that minute. -/
theorem C9_tick_dispatch_amended (a1 e2 : Alarm) (now : Now) (s : TickState)
    (h0 : s.ringing = none)
    (h1 : s.triggeredItems.contains (secondKeyOf now) = false)
    (h2 : now.seconds = 0)
    (h3 : tickPred (timeStrOf now) now.date a1 = true)
    (h4 : a1.type ≠ some ItemKind.event)
    (h5 : tickPred (timeStrOf now) now.date e2 = true)
    (h6 : e2.type = some ItemKind.event) :
    (tick [a1, e2] now s).2 = TickEffect.startRinging a1 ∧
    (∀ lab, (tick [a1, e2] now s).2 ≠ TickEffect.chime lab) ∧
    (tick [a1, e2] now ((tick [a1, e2] now s).1)).2 = TickEffect.noEffect := by
  obtain ⟨hring, heff⟩ := tick_first_match_rings a1 e2 now s h0 h1 h2 h3 h4
  refine ⟨heff, ?_, ?_⟩
  · intro lab
    rw [heff]
    simp
  · apply tick_consumed
    apply tick_fired_records
    rw [heff]
    simp

/-- C9 amended witness: the concrete morning alarm wins the slot and the
following tick of the same minute dispatches nothing. -/
theorem C9_tick_dispatch_amended_witness :
    (tick [morningAlarm, standupEvent] nowNine emptyTickState).2 =
      TickEffect.startRinging morningAlarm ∧
    (tick [morningAlarm, standupEvent] nowNine
      (tick [morningAlarm, standupEvent] nowNine emptyTickState).1).2 =
      TickEffect.noEffect :=
  ⟨(C9_tick_dispatch_amended morningAlarm standupEvent nowNine emptyTickState rfl
      (by decide) rfl (by decide) (by decide) (by decide) (by decide)).1,
   (C9_tick_dispatch_amended morningAlarm standupEvent nowNine emptyTickState rfl
      (by decide) rfl (by decide) (by decide) (by decide) (by decide)).2.2⟩

/-- C10: a saved record never carries both specificDates and a dateRange;
when the range is in use or the item is an event, specificDates is absent,
otherwise dateRange is absent; repeatDays survives alongside either; the
simpler modal variant keeps the same exclusion. -/
theorem C10_modal_save_exclusive (st : ModalState) (initialDate : Option String) :
    (¬(((handleSave st initialDate).specificDates).isSome = true ∧
       ((handleSave st initialDate).dateRange).isSome = true)) ∧
    ((st.type = ItemKind.event ∨ st.useRange = true) →
      (handleSave st initialDate).specificDates = none) ∧
    (st.type = ItemKind.alarm → st.useRange = false →
      (handleSave st initialDate).dateRange = none) ∧
    (st.repeatDays ≠ [] → (handleSave st initialDate).repeatDays = some st.repeatDays) ∧
    (¬(((handleSaveSimple st).specificDates).isSome = true ∧
       ((handleSaveSimple st).dateRange).isSome = true)) := by
  by_cases ht : st.type = ItemKind.event
  · cases hu : st.useRange <;>
      simp [handleSave, handleSaveSimple, ht, hu, List.length_pos]
  · cases hu : st.useRange <;>
      simp [handleSave, handleSaveSimple, ht, hu, List.length_pos]

/-- C10 witness: saving the event modal drops specificDates and keeps its
repeat cycle. -/
theorem C10_modal_save_exclusive_witness :
    (handleSave eventModal (some "2024-06-01")).specificDates = none ∧
    (handleSave eventModal (some "2024-06-01")).repeatDays = some [2] :=
  ⟨(C10_modal_save_exclusive eventModal (some "2024-06-01")).2.1 (Or.inl rfl),
   (C10_modal_save_exclusive eventModal (some "2024-06-01")).2.2.2.1 (by decide)⟩

end Zora
